import Mathlib

/-!
Shallow embedding of `custom_components/bytewatt/api/neovolt_client.py`
(class `NeovoltClient`): session state, the two-tier login, device-list
retrieval and the three-sub-request battery-data aggregation.

Modelling conventions, fixed once for the whole file:

* JSON values are `JVal` (null, rational number, string, object).  Python
  `None` and JSON `null` are both `JVal.null`, matching CPython where the
  two are the same object.  Response bodies that parse as JSON are taken
  to be JSON objects; a body that does not parse is `Body.bad`, and
  reading it with `response.json()` raises a client error
  (`aiohttp.ContentTypeError`), exactly the class the `except` clauses in
  the source name via `aiohttp.ClientError`.  Where the source consults a
  `data` field with dictionary operations, the model covers responses in
  which that field, when consulted, is an object (`objFields` of anything
  else is `[]`).
* The vendor is an oracle: a list of `HResp`, one entry per HTTP request
  the client issues, in issue order.  An exhausted list behaves as a
  transport failure, which is one of the behaviours the quantification
  over all lists already contains, so no behaviour is added.
* Exceptions are the two classes the source ever catches:
  `PyExc.timeoutE` (`asyncio.TimeoutError`) and `PyExc.clientE`
  (`aiohttp.ClientError`).  A timeout is modelled as raised at the
  awaited call it interrupts.  Operations return `Except PyExc` results;
  an `Except.error` value is a raise that escaped every handler of the
  operation.
* Numbers are `Rat`; Python `round(x, 2)` is `round2`, rounding half to
  even as the Python built-in does.
-/

/-- A JSON value / Python value, as far as the client inspects them. -/
inductive JVal : Type where
  | null : JVal
  | num : Rat → JVal
  | str : String → JVal
  | obj : List (String × JVal) → JVal

/-- The body of an HTTP response: either not JSON (so that
`response.json()` raises `aiohttp.ContentTypeError`, an
`aiohttp.ClientError`), or a JSON object given by its fields. -/
inductive Body : Type where
  | bad : Body
  | jsonObj : List (String × JVal) → Body

/-- One vendor response to one HTTP request: a transport failure
(`aiohttp.ClientError` raised at the call), a timeout
(`asyncio.TimeoutError` raised at the call), or a status code with a
body. -/
inductive HResp : Type where
  | netErr : HResp
  | timeout : HResp
  | ok : Nat → Body → HResp

/-- The two exception classes the source catches:
`except (asyncio.TimeoutError, aiohttp.ClientError)`. -/
inductive PyExc : Type where
  | timeoutE : PyExc
  | clientE : PyExc
deriving DecidableEq

/-- The mutable session state of `NeovoltClient`: the `self.token` field
(`None` initially, i.e. `JVal.null`). -/
structure St : Type where
  token : JVal

/-- Issue one HTTP request: consume the next vendor response.  `netErr`
and `timeout` raise; an exhausted oracle behaves as a transport
failure. -/
def doRequest : List HResp → Except PyExc (Nat × Body) × List HResp
  | [] => (Except.error PyExc.clientE, [])
  | HResp.netErr :: tr => (Except.error PyExc.clientE, tr)
  | HResp.timeout :: tr => (Except.error PyExc.timeoutE, tr)
  | HResp.ok s b :: tr => (Except.ok (s, b), tr)

/-- `await response.json()`: yields the object fields, or raises
`aiohttp.ContentTypeError` (an `aiohttp.ClientError`) when the body is
not JSON. -/
def readJson : Body → Except PyExc (List (String × JVal))
  | Body.bad => Except.error PyExc.clientE
  | Body.jsonObj fs => Except.ok fs

/-- `key in dict` on a JSON object. -/
def hasKey (fs : List (String × JVal)) (k : String) : Bool :=
  fs.any (fun p => p.1 == k)

/-- `dict[key]` made total: `some` value when the key is present. -/
def pyLookup (fs : List (String × JVal)) (k : String) : Option JVal :=
  (fs.find? (fun p => p.1 == k)).map (fun p => p.2)

/-- `dict.get(key)`: the value, or `None` when absent. -/
def pyGet (fs : List (String × JVal)) (k : String) : JVal :=
  (pyLookup fs k).getD JVal.null

/-- `dict.get(key, default)`. -/
def pyGetD (fs : List (String × JVal)) (k : String) (d : JVal) : JVal :=
  (pyLookup fs k).getD d

/-- Python truthiness of the values the client tests (`if not self.token`,
`if stats_data`, ...). -/
def truthy : JVal → Bool
  | JVal.null => false
  | JVal.num q => !(q == 0)
  | JVal.str s => !(s == "")
  | JVal.obj fs => !fs.isEmpty

/-- The fields of a value the source goes on to use as a dictionary; the
model covers responses where that value is an object (or absent/null,
which the source filters out by truthiness before use). -/
def objFields : JVal → List (String × JVal)
  | JVal.obj fs => fs
  | _ => []

/-- The numeric content of a JSON value, when it is a number. -/
def asNum : JVal → Option Rat
  | JVal.num q => some q
  | _ => none

/-- The vendor success test used by login, device list, real-time power
and energy statistics: `code == 0 or code == 200`
(source: `result.get("code") != 0 and result.get("code") != 200`). -/
def successCode (v : JVal) : Bool :=
  asNum v == some 0 || asNum v == some 200

/-- The stricter vendor success test used only by the todays-summary
request: `today_result.get("code") == 200`. -/
def code200 (v : JVal) : Bool :=
  asNum v == some 200

/-- Round a rational to the nearest integer, ties to even — the rounding
of the Python built-in `round`.  With `q = q.num / q.den` in lowest
terms and `f` its floor, the fractional part is `m / q.den` with
`m = q.num - f * q.den`, and is compared against one half on
integers. -/
def rhe (q : Rat) : Int :=
  let f := Int.fdiv q.num q.den
  let m := q.num - f * (q.den : Int)
  if 2 * m < (q.den : Int) then f
  else if (q.den : Int) < 2 * m then f + 1
  else if f % 2 = 0 then f else f + 1

/-- Python `round(q, 2)`: the nearest multiple of one hundredth, ties to
even. -/
def round2 (q : Rat) : Rat :=
  mkRat (rhe (q * 100)) 100

/-- Token extraction from a success login payload
(lines 79-86 / 132-139): top-level `token` key first, then `data.token`
when `data` is present, truthy and holds a `token` key. -/
def tokenExtract (fs : List (String × JVal)) : Option JVal :=
  if hasKey fs "token" then some (pyGet fs "token")
  else
    match pyLookup fs "data" with
    | some (JVal.obj ds) =>
        if truthy (JVal.obj ds) && hasKey ds "token" then some (pyGet ds "token")
        else none
    | _ => none

/-- Result of `async_login` / `_async_login_fallback`: outcome, state,
remaining oracle, and the number of login POST requests issued. -/
structure LoginOut : Type where
  res : Except PyExc Bool
  st : St
  rest : List HResp
  posts : Nat

/-- `_async_login_fallback` (lines 95-146): one form-encoded POST; the
whole body sits inside one `try` catching timeouts and client errors, so
every failure yields `False` and the state is untouched except by a
successful token extraction. -/
def loginFallback (st : St) (tr : List HResp) : Bool × St × List HResp :=
  match doRequest tr with
  | (Except.error _, tr2) => (false, st, tr2)
  | (Except.ok (s, b), tr2) =>
    if s ≠ 200 then (false, st, tr2)
    else
      match readJson b with
      | Except.error _ => (false, st, tr2)
      | Except.ok fs =>
        if successCode (pyGet fs "code") then
          match tokenExtract fs with
          | some t => (true, St.mk t, tr2)
          | none => (false, st, tr2)
        else (false, st, tr2)

/-- `async_login` (lines 38-93): one JSON POST with the encrypted
password; non-200 status, vendor error code, or a raised timeout /
client error all divert to `_async_login_fallback`; a success response
without a token fails outright. -/
def asyncLogin (st : St) (tr : List HResp) : LoginOut :=
  match doRequest tr with
  | (Except.error _, tr2) =>
      let f := loginFallback st tr2
      LoginOut.mk (Except.ok f.1) f.2.1 f.2.2 2
  | (Except.ok (s, b), tr2) =>
    if s ≠ 200 then
      let f := loginFallback st tr2
      LoginOut.mk (Except.ok f.1) f.2.1 f.2.2 2
    else
      match readJson b with
      | Except.error _ =>
          let f := loginFallback st tr2
          LoginOut.mk (Except.ok f.1) f.2.1 f.2.2 2
      | Except.ok fs =>
        if successCode (pyGet fs "code") then
          match tokenExtract fs with
          | some t => LoginOut.mk (Except.ok true) (St.mk t) tr2 1
          | none => LoginOut.mk (Except.ok false) st tr2 1
        else
          let f := loginFallback st tr2
          LoginOut.mk (Except.ok f.1) f.2.1 f.2.2 2

theorem loginFallback_rest_le (st : St) (tr : List HResp) :
    (loginFallback st tr).2.2.length ≤ tr.length := by
  unfold loginFallback
  match tr with
  | [] => simp [doRequest]
  | HResp.netErr :: t => simp [doRequest]
  | HResp.timeout :: t => simp [doRequest]
  | HResp.ok s b :: t =>
    simp only [doRequest]
    split
    · simp
    · match b with
      | Body.bad => simp [readJson]
      | Body.jsonObj fs =>
        simp only [readJson]
        split
        · split
          · simp
          · simp
        · simp

theorem asyncLogin_rest_le (st : St) (tr : List HResp) :
    (asyncLogin st tr).rest.length ≤ tr.length := by
  unfold asyncLogin
  match tr with
  | [] =>
    simpa [doRequest] using loginFallback_rest_le st []
  | HResp.netErr :: t =>
    simpa [doRequest] using
      Nat.le_trans (loginFallback_rest_le st t) (Nat.le_succ _)
  | HResp.timeout :: t =>
    simpa [doRequest] using
      Nat.le_trans (loginFallback_rest_le st t) (Nat.le_succ _)
  | HResp.ok s b :: t =>
    simp only [doRequest]
    have hfb := Nat.le_trans (loginFallback_rest_le st t) (Nat.le_succ t.length)
    split
    · simpa using hfb
    · match b with
      | Body.bad => simpa [readJson] using hfb
      | Body.jsonObj fs =>
        simp only [readJson]
        split
        · split
          · simp
          · simp
        · simpa using hfb

theorem doRequest_ok_lt {tr tr2 : List HResp} {s : Nat} {b : Body}
    (h : doRequest tr = (Except.ok (s, b), tr2)) : tr2.length < tr.length := by
  match tr with
  | [] => simp [doRequest] at h
  | HResp.netErr :: t => simp [doRequest] at h
  | HResp.timeout :: t => simp [doRequest] at h
  | HResp.ok s0 b0 :: t =>
    simp only [doRequest, Prod.mk.injEq] at h
    simp [← h.2]

/-- Lines 150-152 / 195-197: `if not self.token: if not await
self.async_login(): return None`.  The entry login sits outside the
`try` of the data request. -/
def ensureToken (st : St) (tr : List HResp) : LoginOut :=
  if truthy st.token then LoginOut.mk (Except.ok true) st tr 0
  else asyncLogin st tr

theorem ensureToken_rest_le (st : St) (tr : List HResp) :
    (ensureToken st tr).rest.length ≤ tr.length := by
  unfold ensureToken
  split
  · simp
  · exact asyncLogin_rest_le st tr

/-- Result of `async_get_device_list`: the returned value (`JVal.null`
is Python `None`, i.e. the absent result), the state, the remaining
oracle, the number of 401-triggered re-login invocations, and the number
of GET requests issued to the device-list endpoint. -/
structure DeviceOut : Type where
  res : Except PyExc JVal
  st : St
  rest : List HResp
  relogins : Nat
  attempts : Nat

/-- The `except (asyncio.TimeoutError, aiohttp.ClientError)` handler of
`async_get_device_list` (lines 189-191): any raise inside the `try`
becomes a `None` return. -/
def catchDL (d : DeviceOut) : DeviceOut :=
  match d.res with
  | Except.error _ => { d with res := Except.ok JVal.null }
  | Except.ok _ => d

mutual

/-- The `try` block and handler of `async_get_device_list`
(lines 154-191), entered with the token already ensured: issue the GET
(consuming the head of the oracle, a raise escaping to the handler as in
`doRequest`); non-200 status returns `None` except that a 401 triggers a
re-login and, when that login succeeds, a recursive retry of the whole
operation; a 200 response with a success code returns
`result.get("data")`. -/
def dlCore (st1 : St) (tr1 : List HResp) : DeviceOut :=
  catchDL <|
    match tr1 with
    | [] => DeviceOut.mk (Except.error PyExc.clientE) st1 [] 0 1
    | HResp.netErr :: tr2 => DeviceOut.mk (Except.error PyExc.clientE) st1 tr2 0 1
    | HResp.timeout :: tr2 => DeviceOut.mk (Except.error PyExc.timeoutE) st1 tr2 0 1
    | HResp.ok status body :: tr2 =>
      if status ≠ 200 then
        if status = 401 then
          let lo2 := asyncLogin st1 tr2
          match lo2.res with
          | Except.ok true =>
            let r := asyncGetDeviceList lo2.st lo2.rest
            DeviceOut.mk r.res r.st r.rest (r.relogins + 1) (r.attempts + 1)
          | Except.ok false => DeviceOut.mk (Except.ok JVal.null) lo2.st lo2.rest 1 1
          | Except.error e => DeviceOut.mk (Except.error e) lo2.st lo2.rest 1 1
        else DeviceOut.mk (Except.ok JVal.null) st1 tr2 0 1
      else
        match readJson body with
        | Except.error e => DeviceOut.mk (Except.error e) st1 tr2 0 1
        | Except.ok fs =>
          if successCode (pyGet fs "code") then
            DeviceOut.mk (Except.ok (pyGet fs "data")) st1 tr2 0 1
          else DeviceOut.mk (Except.ok JVal.null) st1 tr2 0 1
termination_by (tr1.length, 0)
decreasing_by
  rename List HResp => trL
  apply Prod.Lex.left
  have h3 := asyncLogin_rest_le st1 trL
  simp only [List.length_cons]
  omega

/-- `async_get_device_list` (lines 148-191): ensure a token (entry login
outside the `try`), then run the request body `dlCore`. -/
def asyncGetDeviceList (st : St) (tr : List HResp) : DeviceOut :=
  let lo := ensureToken st tr
  match lo.res with
  | Except.error e => DeviceOut.mk (Except.error e) lo.st lo.rest 0 0
  | Except.ok false => DeviceOut.mk (Except.ok JVal.null) lo.st lo.rest 0 0
  | Except.ok true => dlCore lo.st lo.rest
termination_by (tr.length, 1)
decreasing_by
  have h1 : (ensureToken st tr).rest.length ≤ tr.length := ensureToken_rest_le st tr
  rcases Nat.lt_or_ge (ensureToken st tr).rest.length tr.length with h | h
  · exact Prod.Lex.left _ _ h
  · have h2 : (ensureToken st tr).rest.length = tr.length := Nat.le_antisymm h1 h
    rw [h2]
    exact Prod.Lex.right _ (by omega)

end

/-- The flat output mapping `battery_data`: Python dictionary as a
lookup function; `none` means the key is absent. -/
def Dict : Type := String → Option JVal

/-- `battery_data[k] = v`. -/
def dset (d : Dict) (k : String) (v : JVal) : Dict :=
  fun x => if x = k then some v else d x

/-- `battery_data = {}`. -/
def emptyDict : Dict := fun _ => none

/-- `battery_data.update(fields)`. -/
def updateFields (d : Dict) (fs : List (String × JVal)) : Dict :=
  fs.foldl (fun a p => dset a p.1 p.2) d

/-- The energy-statistics field mapping (lines 305-321), applied when
`stats_data` is truthy: eight always-written keys, each
`stats_data.get(...)`. -/
def statsFields (bd : Dict) (sd : List (String × JVal)) : Dict :=
  let b1 := dset bd "Total_Solar_Generation" (pyGet sd "epvT")
  let b2 := dset b1 "Total_Feed_In" (pyGet sd "eout")
  let b3 := dset b2 "Total_Battery_Charge" (pyGet sd "echarge")
  let b4 := dset b3 "PV_Power_House" (pyGet sd "epv2load")
  let b5 := dset b4 "PV_Charging_Battery" (pyGet sd "epvcharge")
  let b6 := dset b5 "Total_House_Consumption" (pyGet sd "eload")
  let b7 := dset b6 "Grid_Based_Battery_Charge" (pyGet sd "egridCharge")
  dset b7 "Grid_Power_Consumption" (pyGet sd "einput")

/-- The todays-summary field mapping (lines 366-393), applied when
`today_data` is truthy: pass-through keys are always written (value may
be null); `Self_Consumption`, `Self_Sufficiency` and
`CO2_Reduction_Tons` are written only when their source field is not
`None`, with the source transforms `round(x * 100, 2)` and
`round(kg / 1000, 2)`. -/
def todayFields (bd : Dict) (td : List (String × JVal)) : Dict :=
  let b1 := dset bd "PV_Generated_Today" (pyGet td "epvtoday")
  let b2 := dset b1 "Total_PV_Generation" (pyGet td "epvtotal")
  let b3 := dset b2 "Consumed_Today" (pyGet td "eload")
  let b4 := dset b3 "Feed_In_Today" (pyGet td "eoutput")
  let b5 := dset b4 "Grid_Import_Today" (pyGet td "einput")
  let b6 := dset b5 "Battery_Charged_Today" (pyGet td "echarge")
  let b7 := dset b6 "Battery_Discharged_Today" (pyGet td "edischarge")
  let b8 :=
    match pyGet td "eselfConsumption" with
    | JVal.null => b7
    | v => dset b7 "Self_Consumption" (JVal.num (round2 (((asNum v).getD 0) * 100)))
  let b9 :=
    match pyGet td "eselfSufficiency" with
    | JVal.null => b8
    | v => dset b8 "Self_Sufficiency" (JVal.num (round2 (((asNum v).getD 0) * 100)))
  let b10 := dset b9 "Trees_Planted" (pyGet td "treeNum")
  let b11 :=
    match pyGet td "carbonNum" with
    | JVal.null => b10
    | v => dset b10 "CO2_Reduction_Tons" (JVal.num (round2 (((asNum v).getD 0) / 1000)))
  let b12 := dset b11 "Today_Income" (pyGet td "todayIncome")
  dset b12 "Total_Income" (pyGet td "totalIncome")

/-- The energy-statistics sub-request (lines 282-332).  The inner `try`
wraps only the GET itself: a timeout or client error there warns and
early-returns the accumulated data (`continue?` component `false`); a
raise from `stats_response.json()` propagates (to the outer handler of
the whole operation); otherwise non-success responses are skipped with a
warning and a success response with truthy data applies
`statsFields`. -/
def statsStep (bd : Dict) (tr : List HResp) :
    Except PyExc (Dict × Bool) × List HResp :=
  match doRequest tr with
  | (Except.error _, tr2) => (Except.ok (bd, false), tr2)
  | (Except.ok (s, b), tr2) =>
    if s = 200 then
      match readJson b with
      | Except.error e => (Except.error e, tr2)
      | Except.ok fs =>
        if successCode (pyGet fs "code") then
          let sd := objFields (pyGetD fs "data" (JVal.obj []))
          (Except.ok ((if sd.isEmpty then bd else statsFields bd sd), true), tr2)
        else (Except.ok (bd, true), tr2)
    else (Except.ok (bd, true), tr2)

/-- The todays-summary sub-request (lines 346-404).  Same shape as
`statsStep` (as the last sub-request its early return and its
fall-through return coincide), except that the vendor success test is
strictly `code == 200`. -/
def todayStep (bd : Dict) (tr : List HResp) :
    Except PyExc Dict × List HResp :=
  match doRequest tr with
  | (Except.error _, tr2) => (Except.ok bd, tr2)
  | (Except.ok (s, b), tr2) =>
    if s = 200 then
      match readJson b with
      | Except.error e => (Except.error e, tr2)
      | Except.ok fs =>
        if code200 (pyGet fs "code") then
          let td := objFields (pyGetD fs "data" (JVal.obj []))
          (Except.ok (if td.isEmpty then bd else todayFields bd td), tr2)
        else (Except.ok bd, tr2)
    else (Except.ok bd, tr2)

/-- Result of `async_get_battery_data`: `Except.ok none` is the Python
`None` return; counters as for `DeviceOut`, `attempts` counting GETs to
the real-time power endpoint. -/
structure BatOut : Type where
  res : Except PyExc (Option Dict)
  st : St
  rest : List HResp
  relogins : Nat
  attempts : Nat

/-- The outermost `except (asyncio.TimeoutError, aiohttp.ClientError)`
handler of `async_get_battery_data` (lines 409-411): any raise inside
the `try` becomes a `None` return. -/
def catchBat (b : BatOut) : BatOut :=
  match b.res with
  | Except.error _ => { b with res := Except.ok none }
  | Except.ok _ => b

theorem statsStep_rest_le (bd : Dict) (tr : List HResp) :
    (statsStep bd tr).2.length ≤ tr.length := by
  unfold statsStep
  match tr with
  | [] => simp [doRequest]
  | HResp.netErr :: t => simp [doRequest]
  | HResp.timeout :: t => simp [doRequest]
  | HResp.ok s b :: t =>
    simp only [doRequest]
    split
    · match b with
      | Body.bad => simp [readJson]
      | Body.jsonObj fs =>
        simp only [readJson]
        split
        · simp
        · simp
    · simp

mutual

/-- The `try` block and handler of `async_get_battery_data`
(lines 219-411), entered with the token already ensured: issue the power
GET (consuming the head of the oracle, a raise escaping to the handler
as in `doRequest`); non-200 status returns `None` except that a 401
triggers a re-login and, when that login succeeds, a recursive retry of
the whole operation; on a success response the `data` payload is merged
into a fresh mapping and the statistics and todays-summary sub-requests
run over it. -/
def batCore (stationId : Option String) (st1 : St) (tr1 : List HResp) : BatOut :=
  catchBat <|
    match tr1 with
    | [] => BatOut.mk (Except.error PyExc.clientE) st1 [] 0 1
    | HResp.netErr :: tr2 => BatOut.mk (Except.error PyExc.clientE) st1 tr2 0 1
    | HResp.timeout :: tr2 => BatOut.mk (Except.error PyExc.timeoutE) st1 tr2 0 1
    | HResp.ok status body :: tr2 =>
      if status ≠ 200 then
        if status = 401 then
          let lo2 := asyncLogin st1 tr2
          match lo2.res with
          | Except.ok true =>
            let r := asyncGetBatteryData stationId lo2.st lo2.rest
            BatOut.mk r.res r.st r.rest (r.relogins + 1) (r.attempts + 1)
          | Except.ok false => BatOut.mk (Except.ok none) lo2.st lo2.rest 1 1
          | Except.error e => BatOut.mk (Except.error e) lo2.st lo2.rest 1 1
        else BatOut.mk (Except.ok none) st1 tr2 0 1
      else
        match readJson body with
        | Except.error e => BatOut.mk (Except.error e) st1 tr2 0 1
        | Except.ok fs1 =>
          if successCode (pyGet fs1 "code") then
            let bd0 := updateFields emptyDict
              (objFields (pyGetD fs1 "data" (JVal.obj [])))
            match statsStep bd0 tr2 with
            | (Except.error e, tr3) => BatOut.mk (Except.error e) st1 tr3 0 1
            | (Except.ok (bd1, false), tr3) =>
                BatOut.mk (Except.ok (some bd1)) st1 tr3 0 1
            | (Except.ok (bd1, true), tr3) =>
              match todayStep bd1 tr3 with
              | (Except.error e, tr4) => BatOut.mk (Except.error e) st1 tr4 0 1
              | (Except.ok bd2, tr4) =>
                  BatOut.mk (Except.ok (some bd2)) st1 tr4 0 1
          else BatOut.mk (Except.ok none) st1 tr2 0 1
termination_by (tr1.length, 0)
decreasing_by
  rename List HResp => trL
  apply Prod.Lex.left
  have h3 := asyncLogin_rest_le st1 trL
  simp only [List.length_cons]
  omega

/-- `async_get_battery_data` (lines 193-411): ensure a token (entry
login outside the `try`), then run the request body `batCore`. -/
def asyncGetBatteryData (stationId : Option String) (st : St)
    (tr : List HResp) : BatOut :=
  let lo := ensureToken st tr
  match lo.res with
  | Except.error e => BatOut.mk (Except.error e) lo.st lo.rest 0 0
  | Except.ok false => BatOut.mk (Except.ok none) lo.st lo.rest 0 0
  | Except.ok true => batCore stationId lo.st lo.rest
termination_by (tr.length, 1)
decreasing_by
  have h1 : (ensureToken st tr).rest.length ≤ tr.length := ensureToken_rest_le st tr
  rcases Nat.lt_or_ge (ensureToken st tr).rest.length tr.length with h | h
  · exact Prod.Lex.left _ _ h
  · have h2 : (ensureToken st tr).rest.length = tr.length := Nat.le_antisymm h1 h
    rw [h2]
    exact Prod.Lex.right _ (by omega)

end

/-- Observation helper for stating theorems: look a key up in a
battery-data result (`none` when the call failed or the key is
absent). -/
def resLookup (r : Except PyExc (Option Dict)) (k : String) : Option JVal :=
  match r with
  | Except.ok (some d) => d k
  | _ => none

theorem loginFallback_false_frame (st : St) (tr : List HResp)
    (h : (loginFallback st tr).1 = false) : (loginFallback st tr).2.1 = st := by
  unfold loginFallback at *
  rcases tr with _ | ⟨r, t⟩
  · simp [doRequest]
  · rcases r with _ | _ | ⟨s, b⟩
    · simp [doRequest]
    · simp [doRequest]
    · by_cases hs : s = 200 <;>
        simp only [doRequest, hs, ne_eq, not_true_eq_false, if_false,
          not_false_eq_true, if_true, ite_not] at h ⊢
      · rcases b with _ | fs
        · simp [readJson]
        · simp only [readJson] at h ⊢
          by_cases hc : successCode (pyGet fs "code") = true <;>
            simp only [hc, if_true, if_false] at h ⊢
          · rcases hx : tokenExtract fs with _ | t0 <;> simp [hx] at h ⊢
          · simp

theorem asyncLogin_isOk (st : St) (tr : List HResp) :
    ∃ b, (asyncLogin st tr).res = Except.ok b := by
  unfold asyncLogin
  rcases tr with _ | ⟨r, t⟩
  · simp [doRequest]
  · rcases r with _ | _ | ⟨s, b⟩
    · simp [doRequest]
    · simp [doRequest]
    · by_cases hs : s = 200 <;> simp only [doRequest, hs, ne_eq, ite_not]
      · rcases b with _ | fs
        · simp [readJson]
        · simp only [readJson]
          by_cases hc : successCode (pyGet fs "code") = true <;>
            simp only [hc, if_true, if_false]
          · rcases hx : tokenExtract fs with _ | t0 <;> simp [hx]
          · simp
      · simp

theorem asyncLogin_false_frame (st : St) (tr : List HResp)
    (h : (asyncLogin st tr).res = Except.ok false) : (asyncLogin st tr).st = st := by
  unfold asyncLogin at *
  rcases tr with _ | ⟨r, t⟩
  · simp only [doRequest] at h ⊢
    exact loginFallback_false_frame st [] (by simpa using h)
  · rcases r with _ | _ | ⟨s, b⟩
    · simp only [doRequest] at h ⊢
      exact loginFallback_false_frame st t (by simpa using h)
    · simp only [doRequest] at h ⊢
      exact loginFallback_false_frame st t (by simpa using h)
    · by_cases hs : s = 200
      · rcases b with _ | fs
        · simp only [doRequest, hs, readJson, ite_not, if_pos rfl] at h ⊢
          exact loginFallback_false_frame st t (by simpa using h)
        · cases hc : successCode (pyGet fs "code")
          · simp only [doRequest, hs, readJson, ite_not, if_pos rfl, hc,
              Bool.false_eq_true, if_false] at h ⊢
            exact loginFallback_false_frame st t (by simpa using h)
          · rcases hx : tokenExtract fs with _ | t0 <;>
              simp [doRequest, hs, readJson, hc, hx] at h ⊢
      · simp only [doRequest, ne_eq, hs, not_false_eq_true, if_true, ite_not,
          if_neg hs] at h ⊢
        exact loginFallback_false_frame st t (by simpa using h)

theorem asyncLogin_change_ok (st : St) (tr : List HResp)
    (h : (asyncLogin st tr).st ≠ st) : (asyncLogin st tr).res = Except.ok true := by
  obtain ⟨b, hb⟩ := asyncLogin_isOk st tr
  cases b
  · exact absurd (asyncLogin_false_frame st tr hb) h
  · exact hb

theorem ensureToken_isOk (st : St) (tr : List HResp) :
    ∃ b, (ensureToken st tr).res = Except.ok b := by
  unfold ensureToken
  split
  · exact ⟨true, rfl⟩
  · exact asyncLogin_isOk st tr

theorem catchDL_isOk (d : DeviceOut) : ∃ v, (catchDL d).res = Except.ok v := by
  unfold catchDL
  rcases hd : d.res with e | v
  · exact ⟨JVal.null, by simp [hd]⟩
  · exact ⟨v, by simp [hd]⟩

theorem catchBat_isOk (b : BatOut) : ∃ v, (catchBat b).res = Except.ok v := by
  unfold catchBat
  rcases hb : b.res with e | v
  · exact ⟨none, by simp [hb]⟩
  · exact ⟨v, by simp [hb]⟩

theorem dlCore_isOk (st1 : St) (tr1 : List HResp) :
    ∃ v, (dlCore st1 tr1).res = Except.ok v := by
  rw [dlCore.eq_def]
  exact catchDL_isOk _

theorem batCore_isOk (sid : Option String) (st1 : St) (tr1 : List HResp) :
    ∃ v, (batCore sid st1 tr1).res = Except.ok v := by
  rw [batCore.eq_def]
  exact catchBat_isOk _

theorem asyncGetDeviceList_isOk (st : St) (tr : List HResp) :
    ∃ v, (asyncGetDeviceList st tr).res = Except.ok v := by
  obtain ⟨b, hb⟩ := ensureToken_isOk st tr
  cases b
  · rw [asyncGetDeviceList]
    simp only [hb]
    exact ⟨JVal.null, rfl⟩
  · rw [asyncGetDeviceList]
    simp only [hb]
    exact dlCore_isOk _ _

theorem asyncGetBatteryData_isOk (sid : Option String) (st : St) (tr : List HResp) :
    ∃ v, (asyncGetBatteryData sid st tr).res = Except.ok v := by
  obtain ⟨b, hb⟩ := ensureToken_isOk st tr
  cases b
  · rw [asyncGetBatteryData]
    simp only [hb]
    exact ⟨none, rfl⟩
  · rw [asyncGetBatteryData]
    simp only [hb]
    exact batCore_isOk _ _ _

theorem catchDL_st (d : DeviceOut) : (catchDL d).st = d.st := by
  unfold catchDL
  rcases hd : d.res with e | v <;> simp

theorem catchBat_st (b : BatOut) : (catchBat b).st = b.st := by
  unfold catchBat
  rcases hb : b.res with e | v <;> simp

theorem ensureToken_state (st : St) (tr : List HResp) :
    (ensureToken st tr).st = st ∨
      ((asyncLogin st tr).res = Except.ok true ∧
        (ensureToken st tr).st = (asyncLogin st tr).st) := by
  unfold ensureToken
  split
  · exact Or.inl rfl
  · obtain ⟨b, hb⟩ := asyncLogin_isOk st tr
    cases b
    · exact Or.inl (asyncLogin_false_frame st tr hb)
    · exact Or.inr ⟨hb, rfl⟩

theorem dlCore_state_src (st1 : St) (tr1 : List HResp) :
    (dlCore st1 tr1).st = st1 ∨
      ∃ st0 tr0, (asyncLogin st0 tr0).res = Except.ok true ∧
        (dlCore st1 tr1).st = (asyncLogin st0 tr0).st := by
  rw [dlCore.eq_def]
  rw [catchDL_st]
  rcases tr1 with _ | ⟨r, tr2⟩
  · exact Or.inl rfl
  · rcases r with _ | _ | ⟨status, body⟩
    · exact Or.inl rfl
    · exact Or.inl rfl
    · simp only []
      split
      · split
        · obtain ⟨b2, hb2⟩ := asyncLogin_isOk st1 tr2
          cases b2
          · simp only [hb2]
            exact Or.inl (asyncLogin_false_frame _ _ hb2)
          · simp only [hb2]
            have hsh : ∀ x : St, x = (asyncGetDeviceList (asyncLogin st1 tr2).st
                (asyncLogin st1 tr2).rest).st →
                (x = (asyncLogin st1 tr2).st ∨
                  ∃ st0 tr0, (asyncLogin st0 tr0).res = Except.ok true ∧
                    x = (asyncLogin st0 tr0).st) := by
              intro x hx
              obtain ⟨b3, hb3⟩ := ensureToken_isOk (asyncLogin st1 tr2).st
                (asyncLogin st1 tr2).rest
              have hets := ensureToken_state (asyncLogin st1 tr2).st
                (asyncLogin st1 tr2).rest
              cases b3
              · rw [asyncGetDeviceList] at hx
                simp only [hb3] at hx
                rcases hets with h | ⟨h1, h2⟩
                · exact Or.inl (hx.trans h)
                · exact Or.inr ⟨(asyncLogin st1 tr2).st, (asyncLogin st1 tr2).rest,
                    h1, hx.trans h2⟩
              · rw [asyncGetDeviceList] at hx
                simp only [hb3] at hx
                have hrec := dlCore_state_src
                  (ensureToken (asyncLogin st1 tr2).st (asyncLogin st1 tr2).rest).st
                  (ensureToken (asyncLogin st1 tr2).st (asyncLogin st1 tr2).rest).rest
                rcases hrec with h | ⟨st0, tr0, h1, h2⟩
                · rcases hets with h4 | ⟨h5, h6⟩
                  · exact Or.inl (hx.trans (h.trans h4))
                  · exact Or.inr ⟨(asyncLogin st1 tr2).st, (asyncLogin st1 tr2).rest,
                      h5, (hx.trans h).trans h6⟩
                · exact Or.inr ⟨st0, tr0, h1, hx.trans h2⟩
            rcases hsh _ rfl with h | ⟨st0, tr0, h1, h2⟩
            · exact Or.inr ⟨st1, tr2, hb2, h⟩
            · exact Or.inr ⟨st0, tr0, h1, h2⟩
        · exact Or.inl rfl
      · split
        · exact Or.inl rfl
        · split
          · exact Or.inl rfl
          · exact Or.inl rfl
termination_by tr1.length
decreasing_by
  have h1 := ensureToken_rest_le (asyncLogin st1 tail).st (asyncLogin st1 tail).rest
  have h2 := asyncLogin_rest_le st1 tail
  simp only [List.length_cons]
  omega

theorem dl_state_src (st : St) (tr : List HResp) :
    (asyncGetDeviceList st tr).st = st ∨
      ∃ st0 tr0, (asyncLogin st0 tr0).res = Except.ok true ∧
        (asyncGetDeviceList st tr).st = (asyncLogin st0 tr0).st := by
  obtain ⟨b, hb⟩ := ensureToken_isOk st tr
  have hets := ensureToken_state st tr
  have hfin : ∀ x : St, x = (ensureToken st tr).st →
      (x = st ∨ ∃ st0 tr0, (asyncLogin st0 tr0).res = Except.ok true ∧
        x = (asyncLogin st0 tr0).st) := by
    intro x hx
    rcases hets with h | ⟨h1, h2⟩
    · exact Or.inl (hx.trans h)
    · exact Or.inr ⟨st, tr, h1, hx.trans h2⟩
  cases b
  · rw [asyncGetDeviceList]
    simp only [hb]
    exact hfin _ rfl
  · rw [asyncGetDeviceList]
    simp only [hb]
    rcases dlCore_state_src (ensureToken st tr).st (ensureToken st tr).rest with
      h | ⟨st0, tr0, h1, h2⟩
    · exact hfin _ h
    · exact Or.inr ⟨st0, tr0, h1, h2⟩

theorem batCore_state_src (sid : Option String) (st1 : St) (tr1 : List HResp) :
    (batCore sid st1 tr1).st = st1 ∨
      ∃ st0 tr0, (asyncLogin st0 tr0).res = Except.ok true ∧
        (batCore sid st1 tr1).st = (asyncLogin st0 tr0).st := by
  rw [batCore.eq_def]
  rw [catchBat_st]
  rcases tr1 with _ | ⟨r, tr2⟩
  · exact Or.inl rfl
  · rcases r with _ | _ | ⟨status, body⟩
    · exact Or.inl rfl
    · exact Or.inl rfl
    · simp only []
      split
      · split
        · obtain ⟨b2, hb2⟩ := asyncLogin_isOk st1 tr2
          cases b2
          · simp only [hb2]
            exact Or.inl (asyncLogin_false_frame _ _ hb2)
          · simp only [hb2]
            have hsh : ∀ x : St, x = (asyncGetBatteryData sid (asyncLogin st1 tr2).st
                (asyncLogin st1 tr2).rest).st →
                (x = (asyncLogin st1 tr2).st ∨
                  ∃ st0 tr0, (asyncLogin st0 tr0).res = Except.ok true ∧
                    x = (asyncLogin st0 tr0).st) := by
              intro x hx
              obtain ⟨b3, hb3⟩ := ensureToken_isOk (asyncLogin st1 tr2).st
                (asyncLogin st1 tr2).rest
              have hets := ensureToken_state (asyncLogin st1 tr2).st
                (asyncLogin st1 tr2).rest
              cases b3
              · rw [asyncGetBatteryData] at hx
                simp only [hb3] at hx
                rcases hets with h | ⟨h1, h2⟩
                · exact Or.inl (hx.trans h)
                · exact Or.inr ⟨(asyncLogin st1 tr2).st, (asyncLogin st1 tr2).rest,
                    h1, hx.trans h2⟩
              · rw [asyncGetBatteryData] at hx
                simp only [hb3] at hx
                have hrec := batCore_state_src sid
                  (ensureToken (asyncLogin st1 tr2).st (asyncLogin st1 tr2).rest).st
                  (ensureToken (asyncLogin st1 tr2).st (asyncLogin st1 tr2).rest).rest
                rcases hrec with h | ⟨st0, tr0, h1, h2⟩
                · rcases hets with h4 | ⟨h5, h6⟩
                  · exact Or.inl (hx.trans (h.trans h4))
                  · exact Or.inr ⟨(asyncLogin st1 tr2).st, (asyncLogin st1 tr2).rest,
                      h5, (hx.trans h).trans h6⟩
                · exact Or.inr ⟨st0, tr0, h1, hx.trans h2⟩
            rcases hsh _ rfl with h | ⟨st0, tr0, h1, h2⟩
            · exact Or.inr ⟨st1, tr2, hb2, h⟩
            · exact Or.inr ⟨st0, tr0, h1, h2⟩
        · exact Or.inl rfl
      · split
        · exact Or.inl rfl
        · split
          · split
            · exact Or.inl rfl
            · exact Or.inl rfl
            · split
              · exact Or.inl rfl
              · exact Or.inl rfl
          · exact Or.inl rfl
termination_by tr1.length
decreasing_by
  have h1 := ensureToken_rest_le (asyncLogin st1 tail).st (asyncLogin st1 tail).rest
  have h2 := asyncLogin_rest_le st1 tail
  simp only [List.length_cons]
  omega

theorem bat_state_src (sid : Option String) (st : St) (tr : List HResp) :
    (asyncGetBatteryData sid st tr).st = st ∨
      ∃ st0 tr0, (asyncLogin st0 tr0).res = Except.ok true ∧
        (asyncGetBatteryData sid st tr).st = (asyncLogin st0 tr0).st := by
  obtain ⟨b, hb⟩ := ensureToken_isOk st tr
  have hets := ensureToken_state st tr
  have hfin : ∀ x : St, x = (ensureToken st tr).st →
      (x = st ∨ ∃ st0 tr0, (asyncLogin st0 tr0).res = Except.ok true ∧
        x = (asyncLogin st0 tr0).st) := by
    intro x hx
    rcases hets with h | ⟨h1, h2⟩
    · exact Or.inl (hx.trans h)
    · exact Or.inr ⟨st, tr, h1, hx.trans h2⟩
  cases b
  · rw [asyncGetBatteryData]
    simp only [hb]
    exact hfin _ rfl
  · rw [asyncGetBatteryData]
    simp only [hb]
    rcases batCore_state_src sid (ensureToken st tr).st (ensureToken st tr).rest with
      h | ⟨st0, tr0, h1, h2⟩
    · exact hfin _ h
    · exact Or.inr ⟨st0, tr0, h1, h2⟩

theorem statsStep_raise (bd : Dict) (r : HResp) (t : List HResp)
    (h : r = HResp.netErr ∨ r = HResp.timeout) :
    statsStep bd (r :: t) = (Except.ok (bd, false), t) := by
  rcases h with rfl | rfl <;> rfl

theorem statsStep_badStatus (bd : Dict) (s : Nat) (b : Body) (t : List HResp)
    (hs : s ≠ 200) : statsStep bd (HResp.ok s b :: t) = (Except.ok (bd, true), t) := by
  simp [statsStep, doRequest, hs]

theorem statsStep_badCode (bd : Dict) (fs : List (String × JVal)) (t : List HResp)
    (hc : successCode (pyGet fs "code") = false) :
    statsStep bd (HResp.ok 200 (Body.jsonObj fs) :: t) = (Except.ok (bd, true), t) := by
  simp [statsStep, doRequest, readJson, hc]

theorem statsStep_badBody (bd : Dict) (t : List HResp) :
    statsStep bd (HResp.ok 200 Body.bad :: t) = (Except.error PyExc.clientE, t) := rfl

theorem statsStep_success (bd : Dict) (fs : List (String × JVal)) (t : List HResp)
    (hc : successCode (pyGet fs "code") = true) :
    statsStep bd (HResp.ok 200 (Body.jsonObj fs) :: t)
      = (Except.ok ((if (objFields (pyGetD fs "data" (JVal.obj []))).isEmpty then bd
          else statsFields bd (objFields (pyGetD fs "data" (JVal.obj [])))), true), t) := by
  simp [statsStep, doRequest, readJson, hc]

theorem todayStep_raise (bd : Dict) (r : HResp) (t : List HResp)
    (h : r = HResp.netErr ∨ r = HResp.timeout) :
    todayStep bd (r :: t) = (Except.ok bd, t) := by
  rcases h with rfl | rfl <;> rfl

theorem todayStep_badStatus (bd : Dict) (s : Nat) (b : Body) (t : List HResp)
    (hs : s ≠ 200) : todayStep bd (HResp.ok s b :: t) = (Except.ok bd, t) := by
  simp [todayStep, doRequest, hs]

theorem todayStep_badCode (bd : Dict) (fs : List (String × JVal)) (t : List HResp)
    (hc : code200 (pyGet fs "code") = false) :
    todayStep bd (HResp.ok 200 (Body.jsonObj fs) :: t) = (Except.ok bd, t) := by
  simp [todayStep, doRequest, readJson, hc]

theorem todayStep_badBody (bd : Dict) (t : List HResp) :
    todayStep bd (HResp.ok 200 Body.bad :: t) = (Except.error PyExc.clientE, t) := rfl

theorem todayStep_success (bd : Dict) (fs : List (String × JVal)) (t : List HResp)
    (hc : code200 (pyGet fs "code") = true) :
    todayStep bd (HResp.ok 200 (Body.jsonObj fs) :: t)
      = (Except.ok (if (objFields (pyGetD fs "data" (JVal.obj []))).isEmpty then bd
          else todayFields bd (objFields (pyGetD fs "data" (JVal.obj [])))), t) := by
  simp [todayStep, doRequest, readJson, hc]

theorem statsStep_empty (bd : Dict) : statsStep bd [] = (Except.ok (bd, false), []) := rfl

theorem todayStep_empty (bd : Dict) : todayStep bd [] = (Except.ok bd, []) := rfl

/-- Unfolding of `async_get_battery_data` past a successful real-time
power response, for an authenticated session: the result is the
stats/today pipeline over the merged power payload, under the outer
handler. -/
theorem bat_power_ok (sid : Option String) (st : St) (fs1 : List (String × JVal))
    (trR : List HResp) (htok : truthy st.token = true)
    (hc : successCode (pyGet fs1 "code") = true) :
    asyncGetBatteryData sid st (HResp.ok 200 (Body.jsonObj fs1) :: trR)
      = catchBat (
          match statsStep (updateFields emptyDict
              (objFields (pyGetD fs1 "data" (JVal.obj [])))) trR with
          | (Except.error e, tr3) => BatOut.mk (Except.error e) st tr3 0 1
          | (Except.ok (bd1, false), tr3) => BatOut.mk (Except.ok (some bd1)) st tr3 0 1
          | (Except.ok (bd1, true), tr3) =>
            match todayStep bd1 tr3 with
            | (Except.error e, tr4) => BatOut.mk (Except.error e) st tr4 0 1
            | (Except.ok bd2, tr4) => BatOut.mk (Except.ok (some bd2)) st tr4 0 1) := by
  have hens : ensureToken st (HResp.ok 200 (Body.jsonObj fs1) :: trR)
      = LoginOut.mk (Except.ok true) st (HResp.ok 200 (Body.jsonObj fs1) :: trR) 0 := by
    simp [ensureToken, htok]
  rw [asyncGetBatteryData]
  simp only [hens]
  rw [batCore.eq_def]
  simp only [readJson, hc]
  norm_num

/-- Unfolding of `async_get_battery_data` at a power response with a
vendor error code: the whole operation returns `None`. -/
theorem bat_power_badCode (sid : Option String) (st : St) (fs1 : List (String × JVal))
    (trR : List HResp) (htok : truthy st.token = true)
    (hc : successCode (pyGet fs1 "code") = false) :
    asyncGetBatteryData sid st (HResp.ok 200 (Body.jsonObj fs1) :: trR)
      = BatOut.mk (Except.ok none) st trR 0 1 := by
  have hens : ensureToken st (HResp.ok 200 (Body.jsonObj fs1) :: trR)
      = LoginOut.mk (Except.ok true) st (HResp.ok 200 (Body.jsonObj fs1) :: trR) 0 := by
    simp [ensureToken, htok]
  rw [asyncGetBatteryData]
  simp only [hens]
  rw [batCore.eq_def]
  simp only [readJson, hc]
  norm_num [catchBat]

/-- The primary-login failure modes named by the spec for C4: transport
failure or timeout raised at the POST, non-200 status, a body that fails
to parse (a client error raised while reading it), or a vendor code
outside 0 and 200. -/
def primaryFail (r : HResp) : Prop :=
  r = HResp.netErr ∨ r = HResp.timeout ∨
    ∃ s b, r = HResp.ok s b ∧
      (s ≠ 200 ∨ b = Body.bad ∨
        ∃ fs, b = Body.jsonObj fs ∧ successCode (pyGet fs "code") = false)

/-- C1 (amended): a 401 on the data request of either operation triggers
a re-login; when that login fails the operation returns absent after
this single re-login and single request, but when it succeeds the
operation restarts in full — the retry can itself meet another 401 and
re-login again, so the number of re-login-and-retry cycles is bounded
only by the response sequence, not by one. -/
theorem C1_retry_unfold :
    (∀ st body rest, truthy st.token = true →
      ((asyncLogin st rest).res = Except.ok false →
        asyncGetDeviceList st (HResp.ok 401 body :: rest)
          = DeviceOut.mk (Except.ok JVal.null) (asyncLogin st rest).st
              (asyncLogin st rest).rest 1 1) ∧
      ((asyncLogin st rest).res = Except.ok true →
        asyncGetDeviceList st (HResp.ok 401 body :: rest)
          = DeviceOut.mk
              (asyncGetDeviceList (asyncLogin st rest).st (asyncLogin st rest).rest).res
              (asyncGetDeviceList (asyncLogin st rest).st (asyncLogin st rest).rest).st
              (asyncGetDeviceList (asyncLogin st rest).st (asyncLogin st rest).rest).rest
              ((asyncGetDeviceList (asyncLogin st rest).st (asyncLogin st rest).rest).relogins + 1)
              ((asyncGetDeviceList (asyncLogin st rest).st (asyncLogin st rest).rest).attempts + 1))) ∧
    (∀ sid st body rest, truthy st.token = true →
      ((asyncLogin st rest).res = Except.ok false →
        asyncGetBatteryData sid st (HResp.ok 401 body :: rest)
          = BatOut.mk (Except.ok none) (asyncLogin st rest).st
              (asyncLogin st rest).rest 1 1) ∧
      ((asyncLogin st rest).res = Except.ok true →
        asyncGetBatteryData sid st (HResp.ok 401 body :: rest)
          = BatOut.mk
              (asyncGetBatteryData sid (asyncLogin st rest).st (asyncLogin st rest).rest).res
              (asyncGetBatteryData sid (asyncLogin st rest).st (asyncLogin st rest).rest).st
              (asyncGetBatteryData sid (asyncLogin st rest).st (asyncLogin st rest).rest).rest
              ((asyncGetBatteryData sid (asyncLogin st rest).st (asyncLogin st rest).rest).relogins + 1)
              ((asyncGetBatteryData sid (asyncLogin st rest).st (asyncLogin st rest).rest).attempts + 1))) := by
  constructor
  · intro st body rest htok
    have hens : ensureToken st (HResp.ok 401 body :: rest)
        = LoginOut.mk (Except.ok true) st (HResp.ok 401 body :: rest) 0 := by
      simp [ensureToken, htok]
    constructor
    · intro hl
      rw [asyncGetDeviceList]
      simp only [hens]
      rw [dlCore.eq_def]
      simp only [hl, catchDL]
      norm_num
    · intro hl
      obtain ⟨v, hv⟩ := asyncGetDeviceList_isOk (asyncLogin st rest).st
        (asyncLogin st rest).rest
      rw [asyncGetDeviceList]
      simp only [hens]
      rw [dlCore.eq_def]
      simp only [hl, catchDL, hv]
      norm_num
  · intro sid st body rest htok
    have hens : ensureToken st (HResp.ok 401 body :: rest)
        = LoginOut.mk (Except.ok true) st (HResp.ok 401 body :: rest) 0 := by
      simp [ensureToken, htok]
    constructor
    · intro hl
      rw [asyncGetBatteryData]
      simp only [hens]
      rw [batCore.eq_def]
      simp only [hl, catchBat]
      norm_num
    · intro hl
      obtain ⟨v, hv⟩ := asyncGetBatteryData_isOk sid (asyncLogin st rest).st
        (asyncLogin st rest).rest
      rw [asyncGetBatteryData]
      simp only [hens]
      rw [batCore.eq_def]
      simp only [hl, catchBat, hv]
      norm_num

/-- C1 witness: with an authenticated session, a 401 whose re-login hits
a transport failure (and whose fallback also fails) ends the operation
with an absent result after exactly one re-login and one request. -/
theorem C1_retry_unfold_witness :
    truthy (St.mk (JVal.str "T")).token = true ∧
    (asyncLogin (St.mk (JVal.str "T")) [HResp.netErr]).res = Except.ok false ∧
    asyncGetDeviceList (St.mk (JVal.str "T")) [HResp.ok 401 Body.bad, HResp.netErr]
      = DeviceOut.mk (Except.ok JVal.null) (St.mk (JVal.str "T")) [] 1 1 :=
  ⟨rfl, rfl, by
    have h := (C1_retry_unfold.1 (St.mk (JVal.str "T")) Body.bad [HResp.netErr] rfl).1 rfl
    simpa [asyncLogin, loginFallback, doRequest] using h⟩

/-- C1 counterexample: a response sequence with two 401 responses and
two successful re-logins makes `async_get_device_list` perform two
re-logins and three requests before returning absent — not the single
re-login and single retry the claim asserts for every sequence. -/
theorem C1_counterexample :
    (asyncGetDeviceList (St.mk (JVal.str "T"))
      [HResp.ok 401 Body.bad,
       HResp.ok 200 (Body.jsonObj [("code", JVal.num 0), ("token", JVal.str "T2")]),
       HResp.ok 401 Body.bad,
       HResp.ok 200 (Body.jsonObj [("code", JVal.num 0), ("token", JVal.str "T3")]),
       HResp.ok 500 Body.bad]).relogins = 2 ∧
    (asyncGetDeviceList (St.mk (JVal.str "T"))
      [HResp.ok 401 Body.bad,
       HResp.ok 200 (Body.jsonObj [("code", JVal.num 0), ("token", JVal.str "T2")]),
       HResp.ok 401 Body.bad,
       HResp.ok 200 (Body.jsonObj [("code", JVal.num 0), ("token", JVal.str "T3")]),
       HResp.ok 500 Body.bad]).attempts = 3 := by
  constructor <;>
    simp [asyncGetDeviceList, dlCore, ensureToken, truthy, catchDL,
      asyncLogin, loginFallback, doRequest, readJson, tokenExtract, hasKey,
      successCode, pyGet, pyLookup, asNum]

/-- C3: on a success login response the client checks the top-level
`token` key first and the nested `data.token` key second; after a `true`
return the session token equals the extracted value, and when neither
location yields a token the attempt — primary and fallback alike —
returns `false`. -/
theorem C3_token_extraction :
    (∀ st fs rest, successCode (pyGet fs "code") = true → hasKey fs "token" = true →
      asyncLogin st (HResp.ok 200 (Body.jsonObj fs) :: rest)
        = LoginOut.mk (Except.ok true) (St.mk (pyGet fs "token")) rest 1) ∧
    (∀ st fs ds rest, successCode (pyGet fs "code") = true → hasKey fs "token" = false →
      pyLookup fs "data" = some (JVal.obj ds) → truthy (JVal.obj ds) = true →
      hasKey ds "token" = true →
      asyncLogin st (HResp.ok 200 (Body.jsonObj fs) :: rest)
        = LoginOut.mk (Except.ok true) (St.mk (pyGet ds "token")) rest 1) ∧
    (∀ st fs rest, successCode (pyGet fs "code") = true → tokenExtract fs = none →
      (asyncLogin st (HResp.ok 200 (Body.jsonObj fs) :: rest)).res = Except.ok false ∧
      (loginFallback st (HResp.ok 200 (Body.jsonObj fs) :: rest)).1 = false) := by
  refine ⟨?_, ?_, ?_⟩
  · intro st fs rest hc hk
    have hx : tokenExtract fs = some (pyGet fs "token") := by
      simp [tokenExtract, hk]
    simp [asyncLogin, doRequest, readJson, hc, hx]
  · intro st fs ds rest hc hk hd htr hk2
    have hx : tokenExtract fs = some (pyGet ds "token") := by
      simp [tokenExtract, hk, hd, htr, hk2]
    simp [asyncLogin, doRequest, readJson, hc, hx]
  · intro st fs rest hc hx
    constructor
    · simp [asyncLogin, doRequest, readJson, hc, hx]
    · simp [loginFallback, doRequest, readJson, hc, hx]

/-- C3 witness: a concrete success payload carrying both a top-level and
a nested token; the top-level one wins and the login succeeds. -/
theorem C3_token_extraction_witness :
    successCode (pyGet [("code", JVal.num 0), ("token", JVal.str "A"),
      ("data", JVal.obj [("token", JVal.str "B")])] "code") = true ∧
    hasKey [("code", JVal.num 0), ("token", JVal.str "A"),
      ("data", JVal.obj [("token", JVal.str "B")])] "token" = true ∧
    asyncLogin (St.mk JVal.null) [HResp.ok 200 (Body.jsonObj
      [("code", JVal.num 0), ("token", JVal.str "A"),
       ("data", JVal.obj [("token", JVal.str "B")])])]
      = LoginOut.mk (Except.ok true) (St.mk (JVal.str "A")) [] 1 :=
  ⟨rfl, rfl, by
    have h := C3_token_extraction.1 (St.mk JVal.null)
      [("code", JVal.num 0), ("token", JVal.str "A"),
       ("data", JVal.obj [("token", JVal.str "B")])] [] rfl rfl
    simpa [pyGet, pyLookup] using h⟩

/-- C4: the primary login issues one POST; on any of the listed failure
modes it hands over to exactly one fallback attempt (two POSTs in total,
never more), whose outcome — including `false` on its own failure —
becomes the outcome of `login()`; the fallback itself always consumes
exactly its single request and never retries. -/
theorem C4_single_fallback :
    (∀ st tr, (asyncLogin st tr).posts ≤ 2) ∧
    (∀ st tr2, (loginFallback st tr2).2.2 = (doRequest tr2).2) ∧
    (∀ st r rest, primaryFail r →
      asyncLogin st (r :: rest) = LoginOut.mk (Except.ok (loginFallback st rest).1)
        (loginFallback st rest).2.1 (loginFallback st rest).2.2 2) := by
  refine ⟨?_, ?_, ?_⟩
  · intro st tr
    unfold asyncLogin
    rcases tr with _ | ⟨r, t⟩
    · simp [doRequest]
    · rcases r with _ | _ | ⟨s, b⟩
      · simp [doRequest]
      · simp [doRequest]
      · by_cases hs : s = 200
        · rcases b with _ | fs
          · simp [doRequest, hs, readJson]
          · cases hc : successCode (pyGet fs "code")
            · simp [doRequest, hs, readJson, hc]
            · rcases hx : tokenExtract fs with _ | t0 <;>
                simp [doRequest, hs, readJson, hc, hx]
        · simp [doRequest, hs, readJson]
  · intro st tr2
    unfold loginFallback
    rcases tr2 with _ | ⟨r, t⟩
    · simp [doRequest]
    · rcases r with _ | _ | ⟨s, b⟩
      · simp [doRequest]
      · simp [doRequest]
      · by_cases hs : s = 200
        · rcases b with _ | fs
          · simp [doRequest, hs, readJson]
          · cases hc : successCode (pyGet fs "code")
            · simp [doRequest, hs, readJson, hc]
            · rcases hx : tokenExtract fs with _ | t0 <;>
                simp [doRequest, hs, readJson, hc, hx]
        · simp [doRequest, hs, readJson]
  · intro st r rest hpf
    rcases hpf with h | h | ⟨s, b, rfl, hfail⟩
    · subst h; simp [asyncLogin, doRequest]
    · subst h; simp [asyncLogin, doRequest]
    · rcases hfail with hs | hb | ⟨fs, rfl, hc⟩
      · simp [asyncLogin, doRequest, hs]
      · subst hb
        by_cases hs : s = 200 <;> simp [asyncLogin, doRequest, hs, readJson]
      · by_cases hs : s = 200 <;> simp [asyncLogin, doRequest, hs, readJson, hc]

/-- C4 witness: a timed-out primary attempt falls back exactly once;
with the fallback also failing, `login()` returns `false` after two
POSTs. -/
theorem C4_single_fallback_witness :
    primaryFail HResp.timeout ∧
    asyncLogin (St.mk JVal.null) [HResp.timeout]
      = LoginOut.mk (Except.ok false) (St.mk JVal.null) [] 2 :=
  ⟨Or.inr (Or.inl rfl), by
    have h := C4_single_fallback.2.2 (St.mk JVal.null) HResp.timeout []
      (Or.inr (Or.inl rfl))
    simpa [loginFallback, doRequest] using h⟩

/-- C5: over every modelled vendor-response sequence none of the three
public operations lets a raised timeout or client error escape: each
returns a plain value (boolean for login, possibly-absent data for the
other two), every raise being stopped by the handler the source wraps
around the operation body. -/
theorem C5_no_thrown_fault (sid : Option String) (st : St) (tr : List HResp) :
    (∃ b, (asyncLogin st tr).res = Except.ok b) ∧
    (∃ v, (asyncGetDeviceList st tr).res = Except.ok v) ∧
    (∃ w, (asyncGetBatteryData sid st tr).res = Except.ok w) :=
  ⟨asyncLogin_isOk st tr, asyncGetDeviceList_isOk st tr,
    asyncGetBatteryData_isOk sid st tr⟩

/-- C8: whenever `login()` returns `false`, the token field is exactly
what it was before the call — absent stays absent, a stale token stays
in place. -/
theorem C8_failed_login_frame (st : St) (tr : List HResp)
    (h : (asyncLogin st tr).res = Except.ok false) :
    (asyncLogin st tr).st.token = st.token := by
  rw [asyncLogin_false_frame st tr h]

/-- C8 witness: a login whose primary and fallback attempts both hit
transport failures returns `false` and leaves a stale token alone. -/
theorem C8_failed_login_frame_witness :
    (asyncLogin (St.mk (JVal.str "S")) [HResp.netErr, HResp.netErr]).res
      = Except.ok false ∧
    (asyncLogin (St.mk (JVal.str "S")) [HResp.netErr, HResp.netErr]).st.token
      = JVal.str "S" :=
  ⟨rfl, C8_failed_login_frame (St.mk (JVal.str "S")) [HResp.netErr, HResp.netErr] rfl⟩

/-- C9 counterexample: a success login response whose `token` field is
JSON null makes `login()` return `true` while setting the token field of
an authenticated session back to absent — the transition the claim says
never occurs. -/
theorem C9_counterexample :
    truthy (St.mk (JVal.str "OLD")).token = true ∧
    (asyncLogin (St.mk (JVal.str "OLD"))
      [HResp.ok 200 (Body.jsonObj [("code", JVal.num 0), ("token", JVal.null)])]).res
      = Except.ok true ∧
    (asyncLogin (St.mk (JVal.str "OLD"))
      [HResp.ok 200 (Body.jsonObj [("code", JVal.num 0), ("token", JVal.null)])]).st.token
      = JVal.null :=
  ⟨rfl, rfl, rfl⟩

/-- C9 (amended): every write to the token field installs the value a
successful login extracted — the session state changes only when a login
returns `true`, and any state reached through the two data operations is
either the initial one or the state of some successful login along the
way; but since the extracted value may itself be JSON null, such a write
can set the token back to absent. -/
theorem C9_token_writes :
    (∀ st tr, (asyncLogin st tr).st ≠ st → (asyncLogin st tr).res = Except.ok true) ∧
    (∀ st tr, (asyncGetDeviceList st tr).st = st ∨
      ∃ st0 tr0, (asyncLogin st0 tr0).res = Except.ok true ∧
        (asyncGetDeviceList st tr).st = (asyncLogin st0 tr0).st) ∧
    (∀ sid st tr, (asyncGetBatteryData sid st tr).st = st ∨
      ∃ st0 tr0, (asyncLogin st0 tr0).res = Except.ok true ∧
        (asyncGetBatteryData sid st tr).st = (asyncLogin st0 tr0).st) :=
  ⟨asyncLogin_change_ok, dl_state_src, bat_state_src⟩

/-- C9 amended witness: a state-changing login is a successful one. -/
theorem C9_token_writes_witness :
    (asyncLogin (St.mk JVal.null)
      [HResp.ok 200 (Body.jsonObj [("code", JVal.num 0), ("token", JVal.str "A")])]).st
      ≠ St.mk JVal.null ∧
    (asyncLogin (St.mk JVal.null)
      [HResp.ok 200 (Body.jsonObj [("code", JVal.num 0), ("token", JVal.str "A")])]).res
      = Except.ok true :=
  ⟨by simp [asyncLogin, doRequest, readJson, tokenExtract, hasKey, pyGet, pyLookup,
      successCode, asNum, St.mk.injEq],
    C9_token_writes.1 (St.mk JVal.null)
      [HResp.ok 200 (Body.jsonObj [("code", JVal.num 0), ("token", JVal.str "A")])]
      (by simp [asyncLogin, doRequest, readJson, tokenExtract, hasKey, pyGet, pyLookup,
        successCode, asNum, St.mk.injEq])⟩

/-- An already-authenticated session state, used in concrete runs. -/
def stTok : St := St.mk (JVal.str "TK")

/-- A concrete success response for the real-time power sub-request,
carrying one data field `pkey = 42`. -/
def powerResp : HResp :=
  HResp.ok 200 (Body.jsonObj [("code", JVal.num 0),
    ("data", JVal.obj [("pkey", JVal.num 42)])])

/-- The energy-statistics failure modes the source tolerates (C2):
transport error or timeout raised by the GET itself, non-200 status, or
a vendor error code on a parsed 200 response. -/
def statsTolerated (r : HResp) : Prop :=
  r = HResp.netErr ∨ r = HResp.timeout ∨
    (∃ s b, r = HResp.ok s b ∧ s ≠ 200) ∨
    (∃ fs, r = HResp.ok 200 (Body.jsonObj fs) ∧ successCode (pyGet fs "code") = false)

/-- The todays-summary failure modes the source tolerates (C2): as for
the statistics, with the strict `code == 200` test. -/
def todayTolerated (r : HResp) : Prop :=
  r = HResp.netErr ∨ r = HResp.timeout ∨
    (∃ s b, r = HResp.ok s b ∧ s ≠ 200) ∨
    (∃ fs, r = HResp.ok 200 (Body.jsonObj fs) ∧ code200 (pyGet fs "code") = false)

/-- C2 (amended): when sub-request 1 succeeds, a transport error or
timeout raised by the GET itself, a non-200 status, or a vendor error
code on sub-request 2 or 3 does not abort the call — the data gathered
so far is still returned; but a 200-status response of sub-request 2 or
3 whose body fails to parse raises a client error that only the
outermost handler catches, so the whole call returns absent even though
sub-request 1 succeeded. -/
theorem C2_partial_tolerance :
    (∀ r2 r3, statsTolerated r2 → todayTolerated r3 →
      resLookup (asyncGetBatteryData none stTok [powerResp, r2, r3]).res "pkey"
        = some (JVal.num 42) ∧
      (asyncGetBatteryData none stTok [powerResp, r2, r3]).res ≠ Except.ok none) ∧
    (∀ rest, (asyncGetBatteryData none stTok
        (powerResp :: HResp.ok 200 Body.bad :: rest)).res = Except.ok none) ∧
    (∀ rest, (asyncGetBatteryData none stTok
        (powerResp :: HResp.ok 500 Body.bad :: HResp.ok 200 Body.bad :: rest)).res
        = Except.ok none) := by
  have hpw := bat_power_ok none (St.mk (JVal.str "TK"))
    [("code", JVal.num 0), ("data", JVal.obj [("pkey", JVal.num 42)])]
  have hbd : updateFields emptyDict (objFields (pyGetD
      [("code", JVal.num 0), ("data", JVal.obj [("pkey", JVal.num 42)])]
      "data" (JVal.obj [])))
      = updateFields emptyDict [("pkey", JVal.num 42)] := rfl
  have hfin : ∀ x : BatOut,
      x.res = Except.ok (some (updateFields emptyDict [("pkey", JVal.num 42)])) →
      resLookup x.res "pkey" = some (JVal.num 42) ∧ x.res ≠ Except.ok none := by
    intro x hx
    rw [hx]
    constructor
    · simp [resLookup, updateFields, emptyDict, dset]
    · simp
  refine ⟨?_, ?_, ?_⟩
  · intro r2 r3 h2 h3
    simp only [powerResp, stTok]
    rw [hpw _ rfl rfl, hbd]
    apply hfin
    rcases h2 with rfl | rfl | ⟨s, b, rfl, hs⟩ | ⟨fs, rfl, hc⟩
    · rw [statsStep_raise _ _ _ (Or.inl rfl)]
      simp [catchBat]
    · rw [statsStep_raise _ _ _ (Or.inr rfl)]
      simp [catchBat]
    · rw [statsStep_badStatus _ _ _ _ hs]
      rcases h3 with rfl | rfl | ⟨s2, b2, rfl, hs2⟩ | ⟨fs2, rfl, hc2⟩
      · simp [todayStep, doRequest, catchBat]
      · simp [todayStep, doRequest, catchBat]
      · simp [todayStep, doRequest, hs2, catchBat]
      · simp [todayStep, doRequest, readJson, hc2, catchBat]
    · rw [statsStep_badCode _ _ _ hc]
      rcases h3 with rfl | rfl | ⟨s2, b2, rfl, hs2⟩ | ⟨fs2, rfl, hc2⟩
      · simp [todayStep, doRequest, catchBat]
      · simp [todayStep, doRequest, catchBat]
      · simp [todayStep, doRequest, hs2, catchBat]
      · simp [todayStep, doRequest, readJson, hc2, catchBat]
  · intro rest
    simp only [powerResp, stTok]
    rw [hpw _ rfl rfl, hbd]
    rw [statsStep_badBody]
    simp [catchBat]
  · intro rest
    simp only [powerResp, stTok]
    rw [hpw _ rfl rfl, hbd]
    rw [statsStep_badStatus _ _ _ _ (by norm_num)]
    simp [todayStep, doRequest, readJson, catchBat]

/-- C2 counterexample: the same successful power response alone yields a
record carrying the power data, yet appending a 200-status
statistics response with a malformed body makes the whole call return
absent — a sub-request-2 failure that does abort. -/
theorem C2_counterexample :
    resLookup (asyncGetBatteryData none stTok [powerResp]).res "pkey"
      = some (JVal.num 42) ∧
    (asyncGetBatteryData none stTok [powerResp, HResp.ok 200 Body.bad]).res
      = Except.ok none := by
  have hpw := bat_power_ok none (St.mk (JVal.str "TK"))
    [("code", JVal.num 0), ("data", JVal.obj [("pkey", JVal.num 42)])]
  constructor
  · simp only [powerResp, stTok]
    rw [hpw _ rfl rfl]
    rw [statsStep_empty]
    simp [catchBat, resLookup, updateFields, emptyDict, dset, objFields, pyGetD,
      pyLookup]
  · simp only [powerResp, stTok]
    rw [hpw _ rfl rfl]
    rw [statsStep_badBody]
    simp [catchBat]

theorem code200_implies_success (c : JVal) (h : code200 c = true) :
    successCode c = true := by
  simp [code200] at h
  simp [successCode, h]

/-- C6: for every vendor code value, login, device list, real-time
power and energy statistics treat the response as success exactly when
`successCode` holds (code 0 or 200), while the todays-summary mapping
runs exactly when `code200` holds (code 200 strictly) — so code 0 is
accepted at the first four sites and rejected at the todays-summary
site. -/
theorem C6_code_asymmetry (c : JVal) :
    (asyncLogin (St.mk JVal.null)
      [HResp.ok 200 (Body.jsonObj [("code", c), ("token", JVal.str "T")])]).res
      = Except.ok (successCode c) ∧
    (asyncGetDeviceList stTok
      [HResp.ok 200 (Body.jsonObj [("code", c), ("data", JVal.str "D")])]).res
      = Except.ok (if successCode c then JVal.str "D" else JVal.null) ∧
    (((asyncGetBatteryData none stTok
      [HResp.ok 200 (Body.jsonObj [("code", c),
        ("data", JVal.obj [("soc", JVal.num 55)])])]).res
      = Except.ok none) ↔ successCode c = false) ∧
    resLookup (asyncGetBatteryData none stTok
      [powerResp, HResp.ok 200 (Body.jsonObj [("code", c),
        ("data", JVal.obj [("epvT", JVal.num 7)])])]).res
      "Total_Solar_Generation" = (if successCode c then some (JVal.num 7) else none) ∧
    resLookup (asyncGetBatteryData none stTok
      [powerResp, HResp.ok 500 Body.bad,
       HResp.ok 200 (Body.jsonObj [("code", c),
        ("data", JVal.obj [("epvtoday", JVal.num 3)])])]).res
      "PV_Generated_Today" = (if code200 c then some (JVal.num 3) else none) := by
  have hpw := bat_power_ok none (St.mk (JVal.str "TK"))
    [("code", JVal.num 0), ("data", JVal.obj [("pkey", JVal.num 42)])]
  refine ⟨?_, ?_, ?_, ?_, ?_⟩
  · cases hsc : successCode c
    · simp [asyncLogin, loginFallback, doRequest, readJson, pyGet, pyLookup, hsc]
    · simp [asyncLogin, doRequest, readJson, tokenExtract, hasKey, pyGet, pyLookup, hsc]
  · cases hsc : successCode c
    · rw [asyncGetDeviceList]
      simp only [ensureToken, stTok, truthy]
      rw [dlCore.eq_def]
      simp [readJson, pyGet, pyLookup, hsc, catchDL]
    · rw [asyncGetDeviceList]
      simp only [ensureToken, stTok, truthy]
      rw [dlCore.eq_def]
      simp [readJson, pyGet, pyLookup, hsc, catchDL]
  · cases hsc : successCode c
    · have h := bat_power_badCode none (St.mk (JVal.str "TK"))
        [("code", c), ("data", JVal.obj [("soc", JVal.num 55)])] [] rfl
        (by simpa [pyGet, pyLookup] using hsc)
      simp only [stTok]
      rw [h]
      simp [hsc]
    · have h := bat_power_ok none (St.mk (JVal.str "TK"))
        [("code", c), ("data", JVal.obj [("soc", JVal.num 55)])] [] rfl
        (by simpa [pyGet, pyLookup] using hsc)
      simp only [stTok]
      rw [h]
      rw [statsStep_empty]
      simp [catchBat, hsc]
  · cases hsc : successCode c
    · simp only [powerResp, stTok]
      rw [hpw _ rfl rfl]
      rw [statsStep_badCode _ _ _ (by simpa [pyGet, pyLookup] using hsc)]
      simp +decide [todayStep_empty, catchBat, resLookup, hsc, updateFields,
        emptyDict, dset, objFields, pyGetD, pyLookup]
    · simp only [powerResp, stTok]
      rw [hpw _ rfl rfl]
      rw [statsStep_success _ _ _ (by simpa [pyGet, pyLookup] using hsc)]
      simp +decide [todayStep_empty, catchBat, resLookup, hsc, statsFields, dset,
        pyGet, pyLookup, objFields, pyGetD, updateFields, emptyDict]
  · cases h2c : code200 c
    · simp only [powerResp, stTok]
      rw [hpw _ rfl rfl]
      rw [statsStep_badStatus _ _ _ _ (by norm_num)]
      simp +decide [todayStep, doRequest, readJson, pyGet, pyLookup, h2c, catchBat,
        resLookup, updateFields, emptyDict, dset, objFields, pyGetD]
    · simp only [powerResp, stTok]
      rw [hpw _ rfl rfl]
      rw [statsStep_badStatus _ _ _ _ (by norm_num)]
      simp +decide [todayStep, doRequest, readJson, pyGet, pyLookup, h2c, catchBat,
        resLookup, todayFields, dset, asNum, objFields, pyGetD, updateFields,
        emptyDict]

/-- C7: for every fraction x and y and kilogram value k in the
todays-summary payload, the returned record carries
`Self_Consumption = round2 (x * 100)`,
`Self_Sufficiency = round2 (y * 100)` and
`CO2_Reduction_Tons = round2 (k / 1000)`; at the edges
`round2 (0 * 100) = 0` and `round2 (1 * 100) = 100`, and input 1234
yields `round2 (1234 / 1000) = 1.23`. -/
theorem C7_rounding_transforms :
    (∀ x y k : Rat,
      resLookup (asyncGetBatteryData none stTok
        [powerResp, HResp.ok 500 Body.bad,
         HResp.ok 200 (Body.jsonObj [("code", JVal.num 200),
           ("data", JVal.obj [("eselfConsumption", JVal.num x),
             ("eselfSufficiency", JVal.num y), ("carbonNum", JVal.num k)])])]).res
        "Self_Consumption" = some (JVal.num (round2 (x * 100))) ∧
      resLookup (asyncGetBatteryData none stTok
        [powerResp, HResp.ok 500 Body.bad,
         HResp.ok 200 (Body.jsonObj [("code", JVal.num 200),
           ("data", JVal.obj [("eselfConsumption", JVal.num x),
             ("eselfSufficiency", JVal.num y), ("carbonNum", JVal.num k)])])]).res
        "Self_Sufficiency" = some (JVal.num (round2 (y * 100))) ∧
      resLookup (asyncGetBatteryData none stTok
        [powerResp, HResp.ok 500 Body.bad,
         HResp.ok 200 (Body.jsonObj [("code", JVal.num 200),
           ("data", JVal.obj [("eselfConsumption", JVal.num x),
             ("eselfSufficiency", JVal.num y), ("carbonNum", JVal.num k)])])]).res
        "CO2_Reduction_Tons" = some (JVal.num (round2 (k / 1000)))) ∧
    round2 ((0 : Rat) * 100) = 0 ∧
    round2 ((1 : Rat) * 100) = 100 ∧
    round2 ((1234 : Rat) / 1000) = 123 / 100 := by
  have hpw := bat_power_ok none (St.mk (JVal.str "TK"))
    [("code", JVal.num 0), ("data", JVal.obj [("pkey", JVal.num 42)])]
  refine ⟨?_, ?_, ?_, ?_⟩
  case refine_2 =>
    have h1 : ((0 : Rat) * 100 * 100) = mkRat 0 1 := by
      rw [Rat.mkRat_eq_div]; norm_num
    have h2 : rhe (mkRat 0 1) = 0 := by decide
    rw [round2, h1, h2]
    simp [Rat.mkRat_eq_div]
  case refine_3 =>
    have h1 : ((1 : Rat) * 100 * 100) = mkRat 10000 1 := by
      rw [Rat.mkRat_eq_div]; norm_num
    have h2 : rhe (mkRat 10000 1) = 10000 := by decide
    rw [round2, h1, h2, Rat.mkRat_eq_div]
    norm_num
  case refine_4 =>
    have h1 : ((1234 : Rat) / 1000 * 100 : Rat) = mkRat 617 5 := by
      rw [Rat.mkRat_eq_div]; norm_num
    have h2 : rhe (mkRat 617 5) = 123 := by decide
    rw [round2, h1, h2, Rat.mkRat_eq_div]
    norm_num
  intro x y k
  refine ⟨?_, ?_, ?_⟩ <;>
    (simp only [powerResp, stTok]
     rw [hpw _ rfl rfl]
     rw [statsStep_badStatus _ _ _ _ (by norm_num)]
     simp +decide [todayStep, doRequest, readJson, code200, asNum, catchBat,
       resLookup, todayFields, dset, pyGet, pyLookup, objFields, pyGetD,
       updateFields, emptyDict])

/-- C10: in a returned record whose todays-summary payload is non-empty,
the three transformed keys are omitted entirely when their source field
is absent (or null), while the pass-through today-scoped keys are always
written, holding the looked-up value — `null` when the source field is
absent. -/
theorem C10_today_key_presence (td : List (String × JVal))
    (h1 : td.isEmpty = false)
    (h2 : pyGet td "eselfConsumption" = JVal.null)
    (h3 : pyGet td "eselfSufficiency" = JVal.null)
    (h4 : pyGet td "carbonNum" = JVal.null) :
    resLookup (asyncGetBatteryData none stTok
      [powerResp, HResp.ok 500 Body.bad,
       HResp.ok 200 (Body.jsonObj [("code", JVal.num 200),
         ("data", JVal.obj td)])]).res "Self_Consumption" = none ∧
    resLookup (asyncGetBatteryData none stTok
      [powerResp, HResp.ok 500 Body.bad,
       HResp.ok 200 (Body.jsonObj [("code", JVal.num 200),
         ("data", JVal.obj td)])]).res "Self_Sufficiency" = none ∧
    resLookup (asyncGetBatteryData none stTok
      [powerResp, HResp.ok 500 Body.bad,
       HResp.ok 200 (Body.jsonObj [("code", JVal.num 200),
         ("data", JVal.obj td)])]).res "CO2_Reduction_Tons" = none ∧
    resLookup (asyncGetBatteryData none stTok
      [powerResp, HResp.ok 500 Body.bad,
       HResp.ok 200 (Body.jsonObj [("code", JVal.num 200),
         ("data", JVal.obj td)])]).res "PV_Generated_Today"
      = some (pyGet td "epvtoday") ∧
    resLookup (asyncGetBatteryData none stTok
      [powerResp, HResp.ok 500 Body.bad,
       HResp.ok 200 (Body.jsonObj [("code", JVal.num 200),
         ("data", JVal.obj td)])]).res "Total_PV_Generation"
      = some (pyGet td "epvtotal") ∧
    resLookup (asyncGetBatteryData none stTok
      [powerResp, HResp.ok 500 Body.bad,
       HResp.ok 200 (Body.jsonObj [("code", JVal.num 200),
         ("data", JVal.obj td)])]).res "Consumed_Today"
      = some (pyGet td "eload") ∧
    resLookup (asyncGetBatteryData none stTok
      [powerResp, HResp.ok 500 Body.bad,
       HResp.ok 200 (Body.jsonObj [("code", JVal.num 200),
         ("data", JVal.obj td)])]).res "Feed_In_Today"
      = some (pyGet td "eoutput") ∧
    resLookup (asyncGetBatteryData none stTok
      [powerResp, HResp.ok 500 Body.bad,
       HResp.ok 200 (Body.jsonObj [("code", JVal.num 200),
         ("data", JVal.obj td)])]).res "Grid_Import_Today"
      = some (pyGet td "einput") ∧
    resLookup (asyncGetBatteryData none stTok
      [powerResp, HResp.ok 500 Body.bad,
       HResp.ok 200 (Body.jsonObj [("code", JVal.num 200),
         ("data", JVal.obj td)])]).res "Battery_Charged_Today"
      = some (pyGet td "echarge") ∧
    resLookup (asyncGetBatteryData none stTok
      [powerResp, HResp.ok 500 Body.bad,
       HResp.ok 200 (Body.jsonObj [("code", JVal.num 200),
         ("data", JVal.obj td)])]).res "Battery_Discharged_Today"
      = some (pyGet td "edischarge") ∧
    resLookup (asyncGetBatteryData none stTok
      [powerResp, HResp.ok 500 Body.bad,
       HResp.ok 200 (Body.jsonObj [("code", JVal.num 200),
         ("data", JVal.obj td)])]).res "Trees_Planted"
      = some (pyGet td "treeNum") ∧
    resLookup (asyncGetBatteryData none stTok
      [powerResp, HResp.ok 500 Body.bad,
       HResp.ok 200 (Body.jsonObj [("code", JVal.num 200),
         ("data", JVal.obj td)])]).res "Today_Income"
      = some (pyGet td "todayIncome") ∧
    resLookup (asyncGetBatteryData none stTok
      [powerResp, HResp.ok 500 Body.bad,
       HResp.ok 200 (Body.jsonObj [("code", JVal.num 200),
         ("data", JVal.obj td)])]).res "Total_Income"
      = some (pyGet td "totalIncome") := by
  have hpw := bat_power_ok none (St.mk (JVal.str "TK"))
    [("code", JVal.num 0), ("data", JVal.obj [("pkey", JVal.num 42)])]
  simp only [pyGet, pyLookup] at h2 h3 h4
  refine ⟨?_, ?_, ?_, ?_, ?_, ?_, ?_, ?_, ?_, ?_, ?_, ?_, ?_⟩ <;>
    (simp only [powerResp, stTok]
     rw [hpw _ rfl rfl]
     rw [statsStep_badStatus _ _ _ _ (by norm_num)]
     simp +decide [todayStep, doRequest, readJson, code200, asNum, catchBat,
       resLookup, todayFields, dset, pyGet, pyLookup, objFields, pyGetD,
       updateFields, emptyDict, h1, h2, h3, h4])

/-- C2 witness: transport failures on both optional sub-requests leave
the power data intact in the returned record. -/
theorem C2_partial_tolerance_witness :
    statsTolerated HResp.netErr ∧ todayTolerated HResp.netErr ∧
    resLookup (asyncGetBatteryData none stTok
      [powerResp, HResp.netErr, HResp.netErr]).res "pkey" = some (JVal.num 42) ∧
    (asyncGetBatteryData none stTok [powerResp, HResp.netErr, HResp.netErr]).res
      ≠ Except.ok none :=
  ⟨Or.inl rfl, Or.inl rfl,
    (C2_partial_tolerance.1 HResp.netErr HResp.netErr (Or.inl rfl) (Or.inl rfl)).1,
    (C2_partial_tolerance.1 HResp.netErr HResp.netErr (Or.inl rfl) (Or.inl rfl)).2⟩

/-- C10 witness: a todays-summary payload holding only `epvtoday = 5`
omits the three transformed keys and passes the rest through, `null`
included. -/
theorem C10_today_key_presence_witness :
    ([("epvtoday", JVal.num 5)] : List (String × JVal)).isEmpty = false ∧
    pyGet [("epvtoday", JVal.num 5)] "eselfConsumption" = JVal.null ∧
    pyGet [("epvtoday", JVal.num 5)] "eselfSufficiency" = JVal.null ∧
    pyGet [("epvtoday", JVal.num 5)] "carbonNum" = JVal.null ∧
    resLookup (asyncGetBatteryData none stTok
      [powerResp, HResp.ok 500 Body.bad,
       HResp.ok 200 (Body.jsonObj [("code", JVal.num 200),
         ("data", JVal.obj [("epvtoday", JVal.num 5)])])]).res "Self_Consumption"
      = none ∧
    resLookup (asyncGetBatteryData none stTok
      [powerResp, HResp.ok 500 Body.bad,
       HResp.ok 200 (Body.jsonObj [("code", JVal.num 200),
         ("data", JVal.obj [("epvtoday", JVal.num 5)])])]).res "PV_Generated_Today"
      = some (JVal.num 5) ∧
    resLookup (asyncGetBatteryData none stTok
      [powerResp, HResp.ok 500 Body.bad,
       HResp.ok 200 (Body.jsonObj [("code", JVal.num 200),
         ("data", JVal.obj [("epvtoday", JVal.num 5)])])]).res "Today_Income"
      = some JVal.null :=
  ⟨rfl, rfl, rfl, rfl,
    (C10_today_key_presence [("epvtoday", JVal.num 5)] rfl rfl rfl rfl).1,
    (C10_today_key_presence [("epvtoday", JVal.num 5)] rfl rfl rfl rfl).2.2.2.1,
    (C10_today_key_presence [("epvtoday", JVal.num 5)] rfl rfl rfl rfl).2.2.2.2.2.2.2.2.2.2.2.1⟩
